import Mathlib

/-!
Verification of the conversation & payment correlation engine of
`src/app.py` (WhatsApp ↔ M-Pesa bridge).

The Python source is shallowly embedded as pure Lean functions:

* the SQLite `conversations` table becomes an in-memory list of records
  (`DB`), in rowid order, so `fetchone` is `List.find?`;
* the HTTP handlers `webhook` and `mpesa_callback` become pure functions
  from their inputs (form fields / parsed JSON payload), the store, and an
  environment (`Env`) describing the external collaborators (the gateway's
  synchronous STK response and the delivery client's success function) to
  an output record carrying the new store, the TwiML reply, the trace of
  outbound WhatsApp sends, the trace of gateway calls, and (for the
  callback) the trace of store upserts and the acknowledgment envelope;
* Python string primitives (`str.split()`, `str.strip`, `str.lower`,
  `str.startswith`, `str.replace`, `float(...)`) are re-implemented as
  structurally recursive functions on character lists so that every
  definition evaluates inside the kernel.  `float` parsing is modelled on
  decimal literals (optional sign, digits, dot, exponent) with exact
  rational values; Python's `inf`/`nan`/underscore forms and binary float
  rounding are out of scope of every claim and are abstracted away.
-/

/-! ## Python string primitives -/

/-- The double-quote character (written via its code point to keep string
scanning simple). -/
def dquoteChar : Char := Char.ofNat 34

/-- The single-quote character. -/
def squoteChar : Char := Char.ofNat 39

/-- A one-character string holding a single quote. -/
def squoteStr : String := String.mk [squoteChar]

/-- A one-character string holding a double quote. -/
def dquoteStr : String := String.mk [dquoteChar]

/-- Python `str.lower()` (ASCII case folding, the only case the commands
use). -/
def lowerStr (s : String) : String := String.mk (s.toList.map Char.toLower)

/-- Drop characters satisfying `p` from both ends of a list. -/
def stripP (p : Char → Bool) (l : List Char) : List Char :=
  ((l.dropWhile p).reverse.dropWhile p).reverse

/-- Python `str.strip()` with no argument: remove leading and trailing
whitespace. -/
def pyStripWs (s : String) : String := String.mk (stripP Char.isWhitespace s.toList)

/-- Python `str.strip(chars)`: remove ALL leading and trailing characters
that belong to `cs` (not just one layer). -/
def pyStripChars (s : String) (cs : List Char) : String :=
  String.mk (stripP (fun c => cs.contains c) s.toList)

/-- Worker for `pySplit`: accumulate the current token (reversed) while
scanning. -/
def splitWsAux : List Char → List Char → List String
  | [], acc => if acc = [] then [] else [String.mk acc.reverse]
  | c :: rest, acc =>
    if c.isWhitespace then
      if acc = [] then splitWsAux rest []
      else String.mk acc.reverse :: splitWsAux rest []
    else splitWsAux rest (c :: acc)

/-- Python `str.split()` with no argument: split on whitespace runs,
dropping empty tokens. -/
def pySplit (s : String) : List String := splitWsAux s.toList []

/-- Python `str.startswith(pre)`. -/
def pyStartsWith (s pre : String) : Bool := pre.toList.isPrefixOf s.toList

/-- Worker for `pyRemoveAll`; `fuel` bounds the recursion (one unit per
consumed character suffices). -/
def removeAllAux (pat : List Char) : Nat → List Char → List Char
  | _, [] => []
  | 0, l => l
  | fuel + 1, c :: rest =>
    if pat ≠ [] ∧ pat.isPrefixOf (c :: rest) then
      removeAllAux pat fuel (List.drop pat.length (c :: rest))
    else
      c :: removeAllAux pat fuel rest

/-- Python `s.replace(pat, "")`: delete every (non-overlapping,
left-to-right) occurrence of `pat`. -/
def pyRemoveAll (s pat : String) : String :=
  String.mk (removeAllAux pat.toList s.toList.length s.toList)

/-- Numeric value of a digit list (most significant first). -/
def digitsToNat (l : List Char) : Nat := l.foldl (fun a c => a * 10 + (c.toNat - 48)) 0

/-- Python `float(s)` on decimal literals: optional surrounding whitespace,
optional sign, digits with an optional dot and fractional part (at least
one digit overall), and an optional exponent.  Returns the exact rational
value, `none` on parse failure (Python's `ValueError`). -/
def pyFloat? (s : String) : Option Rat :=
  let l := stripP Char.isWhitespace s.toList
  let sgnSplit : Int × List Char :=
    match l with
    | c :: r => if c = '+' then (1, r) else if c = '-' then (-1, r) else (1, l)
    | [] => (1, [])
  let sgn := sgnSplit.1
  let l1 := sgnSplit.2
  let ip := l1.takeWhile Char.isDigit
  let r1 := l1.dropWhile Char.isDigit
  let fracSplit : List Char × List Char :=
    match r1 with
    | c :: r => if c = '.' then (r.takeWhile Char.isDigit, r.dropWhile Char.isDigit) else ([], r1)
    | [] => ([], [])
  let fp := fracSplit.1
  let r2 := fracSplit.2
  let expPart : Option Int :=
    match r2 with
    | [] => some 0
    | c :: r =>
      if c = 'e' ∨ c = 'E' then
        let esSplit : Int × List Char :=
          match r with
          | d :: t => if d = '+' then (1, t) else if d = '-' then (-1, t) else (1, r)
          | [] => (1, [])
        let ed := esSplit.2.takeWhile Char.isDigit
        let r4 := esSplit.2.dropWhile Char.isDigit
        if ed = [] ∨ r4 ≠ [] then none else some (esSplit.1 * (digitsToNat ed : Int))
      else none
  if ip = [] ∧ fp = [] then none
  else
    match expPart with
    | none => none
    | some e =>
      let m : Int := sgn * ((digitsToNat ip * 10 ^ fp.length + digitsToNat fp : Nat) : Int)
      let k : Int := e - (fp.length : Int)
      if 0 ≤ k then some (mkRat (m * 10 ^ k.toNat) 1)
      else some (mkRat m (10 ^ (-k).toNat))

/-! ## Python values carried by the callback payload and the store -/

/-- A Python value as far as the callback payload and the store need it:
JSON integers, JSON floats (exact rationals), and strings. -/
inductive PyVal where
  | vint (n : Int)
  | vfloat (q : Rat)
  | vstr (s : String)
deriving DecidableEq, Repr

/-- Rendering of a rational in a message (Python's float formatting is
abstracted as exact-rational rendering; no claim depends on the digits). -/
def ratRepr (q : Rat) : String := toString q

/-- Python `str()` / f-string interpolation of a `PyVal`. -/
def pyStr : PyVal → String
  | .vint n => toString n
  | .vfloat q => ratRepr q
  | .vstr s => s

/-! ## The conversation store (`conversations` table, `src/app.py` 54-169) -/

/-- One row of the `conversations` table. -/
structure ConvRecord where
  id : Nat
  customer_number : String
  feedback_number : String
  last_message_time : Nat
  payment_amount : Option PyVal
  active : Bool
deriving DecidableEq, Repr

/-- The `conversations` table: rows in rowid (insertion) order, plus the
next AUTOINCREMENT id. -/
structure DB where
  records : List ConvRecord
  nextId : Nat
deriving DecidableEq, Repr

/-- The `WHERE customer_number = ? AND feedback_number = ?` test used by
`track_conversation`. -/
def pairMatches (F c : String) (r : ConvRecord) : Bool :=
  r.customer_number == c && r.feedback_number == F

/-- The rows of `db` belonging to the pair `(c, F)`. -/
def pairRecords (F c : String) (db : DB) : List ConvRecord :=
  db.records.filter (pairMatches F c)

/-- Model of `track_conversation` (`src/app.py` 82-118): if a row for the pair
`(customer_number, F)` exists, refresh `last_message_time`, set
`payment_amount = COALESCE(amount, payment_amount)` and force
`active = TRUE` on every matching row; otherwise insert a new row with the
given amount (the `active` column defaults to TRUE). -/
def track_conversation (F : String) (now : Nat) (db : DB)
    (customer_number : String) (amount : Option PyVal) : DB :=
  if db.records.any (pairMatches F customer_number) then
    { db with
      records := db.records.map (fun r =>
        if pairMatches F customer_number r then
          { r with
            last_message_time := now,
            payment_amount := match amount with | some a => some a | none => r.payment_amount,
            active := true }
        else r) }
  else
    { records := db.records ++
        [{ id := db.nextId, customer_number := customer_number, feedback_number := F,
           last_message_time := now, payment_amount := amount, active := true }],
      nextId := db.nextId + 1 }

/-- Model of `is_active_conversation` (`src/app.py` 120-137): some row has this
number as either party and `active = TRUE`. -/
def is_active_conversation (db : DB) (phone_number : String) : Bool :=
  db.records.any (fun r =>
    (r.customer_number == phone_number || r.feedback_number == phone_number) && r.active)

/-- Model of `get_conversation_partner` (`src/app.py` 139-169): first try the
customer side, then the feedback side; `fetchone` on a query without
ORDER BY returns the first row in rowid order. -/
def get_conversation_partner (db : DB) (phone_number : String) : Option String :=
  match db.records.find? (fun r => r.customer_number == phone_number && r.active) with
  | some r => some r.feedback_number
  | none =>
    match db.records.find? (fun r => r.feedback_number == phone_number && r.active) with
    | some r => some r.customer_number
    | none => none

/-! ## External collaborators -/

/-- The gateway's synchronous response to `initiate_stk_push` as the code
inspects it: the optional `ResponseCode` field and the optional
`errorMessage` field.  A transport failure or the `{"error": ...}` dict
returned by the `except` branch of `initiate_stk_push` is a response with
`responseCode = none`. -/
structure StkResp where
  responseCode : Option String
  errorMessage : Option String
deriving DecidableEq, Repr

/-- One outbound WhatsApp message: the recipient (after Twilio's
`whatsapp:` prefix handling) and the body. -/
structure SentMsg where
  recipient : String
  body : String
deriving DecidableEq, Repr

/-- The external world for one request: what the payment gateway answers
and whether the delivery client succeeds for a given (recipient, body). -/
structure Env where
  stkResp : StkResp
  deliveryOk : String → String → Bool

/-- Model of `send_whatsapp_message` (`src/app.py` 279-306): strip any `whatsapp:`
prefix from the recipient, attempt delivery, return `True`/`False`; a
delivery failure is caught inside and never propagates. -/
def send_whatsapp_message (env : Env) (to_number message : String) : SentMsg × Bool :=
  let t := pyRemoveAll to_number "whatsapp:"
  (⟨t, message⟩, env.deliveryOk t message)

/-- The phone-number normalization inside `initiate_stk_push`
(`src/app.py` 234-240): strip the `+` of a leading `+254`, replace a
leading `0` by `254`, pass anything else through unchanged. -/
def formatPhone (phone_number : String) : String :=
  if pyStartsWith phone_number "+254" then String.mk (phone_number.toList.drop 1)
  else if pyStartsWith phone_number "0" then "254" ++ String.mk (phone_number.toList.drop 1)
  else phone_number

/-- Model of `initiate_stk_push` (`src/app.py` 214-277): normalize the phone
number, acquire a token and POST the STK push (both folded into one
gateway interaction recorded in the trace), return the gateway's JSON
response. -/
def initiate_stk_push (env : Env) (phone_number : String) (amount : Rat) :
    StkResp × List (String × Rat) :=
  (env.stkResp, [(formatPhone phone_number, amount)])

/-! ## Message texts (`src/app.py` 346-400, 429-432) -/

def paymentReply (amount : Rat) : String :=
  "Payment request of KES " ++ ratRepr amount ++
    " sent to your phone. Please enter your PIN to complete."

def feedbackNotification (amount : Rat) : String :=
  "New payment of KES " ++ ratRepr amount ++
    " initiated by customer. You can now chat directly with them."

def failedPaymentReply (msg : String) : String := "Failed to initiate payment: " ++ msg

def invalidAmountMsg : String :=
  "Invalid amount. Please enter a numeric value like: !dm pesa 100"

def invalidFormatMsg : String := "Invalid command format. Use: !dm pesa [amount]"

def forwardedMsg : String := "Message forwarded"

def forwardFailMsg : String :=
  "Sorry, we couldn" ++ squoteStr ++ "t forward your message. Please try again later."

def partnerNotFoundMsg : String :=
  "Could not find your conversation partner. Please try again later."

def helpFeedbackMsg : String :=
  "There are no active customer conversations. Wait for payment notifications."

def helpCustomerMsg : String := "To make a payment, send: !dm pesa [amount]"

def customerConfirmation (amountStr receiptStr : String) : String :=
  "Your payment of KES " ++ amountStr ++ " (Receipt: " ++ receiptStr ++
    ") was successful. You can now communicate directly with our support team."

def feedbackConfirmation (amountStr receiptStr customer : String) : String :=
  "Payment of KES " ++ amountStr ++ " (Receipt: " ++ receiptStr ++
    ") was completed by customer " ++ customer ++ ". You can now chat directly with them."

/-! ## The `/webhook` handler (`src/app.py` 308-406) -/

/-- Everything one `/webhook` invocation produces: the store afterwards,
the single TwiML reply, outbound WhatsApp sends, and gateway calls
`(normalized phone, amount)` (empty means neither token acquisition nor
STK push happened). -/
structure WebhookOut where
  db : DB
  reply : String
  sent : List SentMsg
  stk : List (String × Rat)
deriving Repr

/-- The payment branch of `/webhook` (`src/app.py` 339-359), entered once
the amount parsed: call the gateway, then on `ResponseCode == '0'` reply
with the PIN prompt, upsert the conversation and notify the feedback
number; on any other response reply with the gateway's error message. -/
def webhookPayment (F : String) (now : Nat) (env : Env) (db : DB)
    (sender_number : String) (amount : Rat) : WebhookOut :=
  if (initiate_stk_push env sender_number amount).1.responseCode = some "0" then
    { db := track_conversation F now db sender_number (some (PyVal.vfloat amount)),
      reply := paymentReply amount,
      sent := [(send_whatsapp_message env F (feedbackNotification amount)).1],
      stk := (initiate_stk_push env sender_number amount).2 }
  else
    { db := db,
      reply := failedPaymentReply
        ((initiate_stk_push env sender_number amount).1.errorMessage.getD "Unknown error"),
      sent := [], stk := (initiate_stk_push env sender_number amount).2 }

/-- The command block of `/webhook` (`src/app.py` 326-374): validate the
token structure, strip quotes from the third token, parse it as a float
(`ValueError` yields the usage reply), then run the payment branch. -/
def webhookCmd (F : String) (now : Nat) (env : Env) (db : DB)
    (sender_number incoming_msg : String) : WebhookOut :=
  if 3 ≤ (pySplit incoming_msg).length ∧
      lowerStr ((pySplit incoming_msg).getD 0 "") = "!dm" ∧
      lowerStr ((pySplit incoming_msg).getD 1 "") = "pesa" then
    match pyFloat? (pyStripChars (pyStripChars ((pySplit incoming_msg).getD 2 "")
        [dquoteChar]) [squoteChar]) with
    | some amount => webhookPayment F now env db sender_number amount
    | none => { db := db, reply := invalidAmountMsg, sent := [], stk := [] }
  else { db := db, reply := invalidFormatMsg, sent := [], stk := [] }

/-- The `/webhook` handler (`src/app.py` 308-406).  `body` is the form's
`Body` (stripped of surrounding whitespace before any use), `fromField`
the form's `From` (its `whatsapp:` prefix removed); `F` is the configured
feedback number, `now` the current time.  The three top-level branches
are: payment command (classified by `lower().startswith('!dm pesa')`),
active-conversation forwarding, and the help replies. -/
def webhook (F : String) (now : Nat) (env : Env) (db : DB)
    (body fromField : String) : WebhookOut :=
  if pyStartsWith (lowerStr (pyStripWs body)) "!dm pesa" then
    webhookCmd F now env db (pyRemoveAll fromField "whatsapp:") (pyStripWs body)
  else if is_active_conversation db (pyRemoveAll fromField "whatsapp:") then
    match get_conversation_partner db (pyRemoveAll fromField "whatsapp:") with
    | some recipient =>
      { db := db,
        reply := if (send_whatsapp_message env recipient (pyStripWs body)).2 then
            forwardedMsg
          else forwardFailMsg,
        sent := [(send_whatsapp_message env recipient (pyStripWs body)).1], stk := [] }
    | none => { db := db, reply := partnerNotFoundMsg, sent := [], stk := [] }
  else
    { db := db,
      reply := if pyRemoveAll fromField "whatsapp:" = F then helpFeedbackMsg
        else helpCustomerMsg,
      sent := [], stk := [] }

/-! ## The `/mpesa-callback` handler (`src/app.py` 409-444) -/

/-- The parsed JSON payload of a callback, with each field optional (the
code substitutes sentinels for missing fields). -/
structure CallbackData where
  amount : Option PyVal
  phoneNumber : Option String
  receipt : Option String
  resultCode : Option PyVal
deriving DecidableEq, Repr

/-- Python's `data.get('ResultCode') == 0`: true for the JSON integer 0
(or the numerically equal float), false for a missing field, a string, or
any other number. -/
def resultCodeIsZero : Option PyVal → Bool
  | some (.vint n) => n == 0
  | some (.vfloat q) => q == 0
  | _ => false

/-- Everything one `/mpesa-callback` invocation produces: the store, the
trace of `track_conversation` calls, the outbound sends, and the JSON
acknowledgment envelope returned to the gateway. -/
structure CallbackOut where
  db : DB
  upserts : List (String × Option PyVal)
  sent : List SentMsg
  ackCode : Nat
  ackDesc : String
deriving Repr

/-- The extraction `data.get('Amount', 'unknown amount')` (`src/app.py`
417). -/
def transactionAmount (data : CallbackData) : PyVal :=
  data.amount.getD (PyVal.vstr "unknown amount")

/-- The extraction `data.get('PhoneNumber', 'unknown number')`
(`src/app.py` 418). -/
def callbackPhone (data : CallbackData) : String :=
  data.phoneNumber.getD "unknown number"

/-- The extraction `data.get('MpesaReceiptNumber', 'unknown')`
(`src/app.py` 419). -/
def transactionId (data : CallbackData) : String := data.receipt.getD "unknown"

/-- The `/mpesa-callback` handler on a parsed payload. -/
def mpesa_callback (F : String) (now : Nat) (env : Env) (db : DB)
    (data : CallbackData) : CallbackOut :=
  if resultCodeIsZero data.resultCode ∧ callbackPhone data ≠ "unknown number" then
    { db := track_conversation F now db (callbackPhone data) (some (transactionAmount data)),
      upserts := [(callbackPhone data, some (transactionAmount data))],
      sent := [(send_whatsapp_message env (callbackPhone data)
          (customerConfirmation (pyStr (transactionAmount data)) (transactionId data))).1,
        (send_whatsapp_message env F
          (feedbackConfirmation (pyStr (transactionAmount data)) (transactionId data)
            (callbackPhone data))).1],
      ackCode := 0, ackDesc := "Callback received successfully" }
  else
    { db := db, upserts := [], sent := [],
      ackCode := 0, ackDesc := "Callback received successfully" }
/-! ## Helper lemmas -/

theorem dropWhile_eq_self_of (p : Char → Bool) (l : List Char)
    (h : ∀ c ∈ l, p c = false) : l.dropWhile p = l := by
  cases l with
  | nil => rfl
  | cons c t => simp [List.dropWhile_cons, h c (by simp)]

theorem stripP_eq_self (p : Char → Bool) (l : List Char)
    (h : ∀ c ∈ l, p c = false) : stripP p l = l := by
  unfold stripP
  rw [dropWhile_eq_self_of p l h,
    dropWhile_eq_self_of p l.reverse (fun c hc => h c (List.mem_reverse.mp hc)),
    List.reverse_reverse]

theorem stripP_wrap (p : Char → Bool) (q c : Char) (t : List Char) (hq : p q = true)
    (hc : p c = false) (h : ∀ x ∈ t, p x = false) :
    stripP p (q :: ((c :: t) ++ [q])) = c :: t := by
  have hall : ∀ x ∈ c :: t, p x = false := by
    intro x hx
    rcases List.mem_cons.mp hx with h1 | h2
    · exact h1 ▸ hc
    · exact h x h2
  unfold stripP
  have h1 : List.dropWhile p (q :: ((c :: t) ++ [q])) = (c :: t) ++ [q] := by
    rw [List.dropWhile_cons, if_pos hq, List.cons_append, List.dropWhile_cons, if_neg (by simp [hc])]
  rw [h1]
  have h2 : ((c :: t) ++ [q]).reverse = q :: (c :: t).reverse := by simp
  rw [h2, List.dropWhile_cons, if_pos hq,
    dropWhile_eq_self_of p (c :: t).reverse (fun x hx => hall x (List.mem_reverse.mp hx)),
    List.reverse_reverse]

theorem pairMatches_iff (F c : String) (r : ConvRecord) :
    pairMatches F c r = true ↔ r.customer_number = c ∧ r.feedback_number = F := by
  simp [pairMatches]

theorem track_exists_pair (F : String) (now : Nat) (db : DB) (c : String)
    (a : Option PyVal) :
    ∃ r ∈ (track_conversation F now db c a).records,
      r.customer_number = c ∧ r.feedback_number = F ∧ r.active = true := by
  unfold track_conversation
  by_cases h : db.records.any (pairMatches F c) = true
  · rw [if_pos h]
    obtain ⟨r, hr, hp⟩ := List.any_eq_true.mp h
    obtain ⟨h1, h2⟩ := (pairMatches_iff F c r).mp hp
    refine ⟨_, List.mem_map_of_mem _ hr, ?_⟩
    simp only [hp, if_true]
    exact ⟨h1, h2, by trivial⟩
  · rw [if_neg h]
    exact ⟨_, List.mem_append_right _ (List.mem_singleton.mpr rfl), rfl, rfl, rfl⟩

theorem track_preserves_feedback (F : String) (now : Nat) (db : DB) (c : String)
    (a : Option PyVal) (h : ∀ r ∈ db.records, r.feedback_number = F) :
    ∀ r ∈ (track_conversation F now db c a).records, r.feedback_number = F := by
  unfold track_conversation
  by_cases hc : db.records.any (pairMatches F c) = true
  · rw [if_pos hc]
    intro r hr
    obtain ⟨r0, hr0, rfl⟩ := List.mem_map.mp hr
    by_cases hp : pairMatches F c r0 = true
    · rw [if_pos hp]; exact ((pairMatches_iff F c r0).mp hp).2
    · rw [if_neg hp]; exact h r0 hr0
  · rw [if_neg hc]
    intro r hr
    rcases List.mem_append.mp hr with h1 | h2
    · exact h r h1
    · rw [List.mem_singleton.mp h2]

theorem track_preserves_active_customer (F : String) (now : Nat) (db : DB) (c : String)
    (a : Option PyVal) (h : ∀ r ∈ db.records, r.active = true → r.customer_number = c) :
    ∀ r ∈ (track_conversation F now db c a).records, r.active = true → r.customer_number = c := by
  unfold track_conversation
  by_cases hc : db.records.any (pairMatches F c) = true
  · rw [if_pos hc]
    intro r hr
    obtain ⟨r0, hr0, rfl⟩ := List.mem_map.mp hr
    by_cases hp : pairMatches F c r0 = true
    · rw [if_pos hp]; intro _; exact ((pairMatches_iff F c r0).mp hp).1
    · rw [if_neg hp]; exact h r0 hr0
  · rw [if_neg hc]
    intro r hr
    rcases List.mem_append.mp hr with h1 | h2
    · exact h r h1
    · rw [List.mem_singleton.mp h2]; intro _; rfl

theorem track_pair_amount (F : String) (now : Nat) (db : DB) (c : String) (a : PyVal) :
    ∀ r ∈ (track_conversation F now db c (some a)).records,
      pairMatches F c r = true → r.payment_amount = some a := by
  unfold track_conversation
  by_cases hc : db.records.any (pairMatches F c) = true
  · rw [if_pos hc]
    intro r hr
    obtain ⟨r0, hr0, rfl⟩ := List.mem_map.mp hr
    by_cases hp : pairMatches F c r0 = true
    · rw [if_pos hp]; intro _; rfl
    · rw [if_neg hp]; intro hcon; exact absurd hcon hp
  · rw [if_neg hc]
    intro r hr
    rcases List.mem_append.mp hr with h1 | h2
    · intro hcon
      exact absurd (List.any_eq_true.mpr ⟨r, h1, hcon⟩) (by simp [hc])
    · rw [List.mem_singleton.mp h2]; intro _; rfl

theorem track_any_pair (F : String) (now : Nat) (db : DB) (c : String) (a : Option PyVal) :
    (track_conversation F now db c a).records.any (pairMatches F c) = true := by
  obtain ⟨r, hr, h1, h2, _⟩ := track_exists_pair F now db c a
  exact List.any_eq_true.mpr ⟨r, hr, (pairMatches_iff F c r).mpr ⟨h1, h2⟩⟩

theorem is_active_of_exists (db : DB) (p : String)
    (h : ∃ r ∈ db.records, (r.customer_number = p ∨ r.feedback_number = p) ∧ r.active = true) :
    is_active_conversation db p = true := by
  obtain ⟨r, hr, hor, ha⟩ := h
  unfold is_active_conversation
  refine List.any_eq_true.mpr ⟨r, hr, ?_⟩
  rcases hor with h1 | h1 <;> simp [h1, ha]

theorem partner_customer_side (db : DB) (p : String) (F : String)
    (hfb : ∀ r ∈ db.records, r.feedback_number = F)
    (hex : ∃ r ∈ db.records, r.customer_number = p ∧ r.active = true) :
    get_conversation_partner db p = some F := by
  unfold get_conversation_partner
  have hsome : (db.records.find? (fun r => r.customer_number == p && r.active)).isSome := by
    rw [List.find?_isSome]
    obtain ⟨r, hr, h1, h2⟩ := hex
    exact ⟨r, hr, by simp [h1, h2]⟩
  obtain ⟨r, heq⟩ := Option.isSome_iff_exists.mp hsome
  rw [heq]
  exact congrArg some (hfb r (List.mem_of_find?_eq_some heq))

theorem partner_feedback_side (db : DB) (c : String) (F : String)
    (hfb : ∀ r ∈ db.records, r.feedback_number = F)
    (hact : ∀ r ∈ db.records, r.active = true → r.customer_number = c)
    (hex : ∃ r ∈ db.records, r.feedback_number = F ∧ r.active = true) :
    get_conversation_partner db F = some c := by
  unfold get_conversation_partner
  cases h1 : db.records.find? (fun r => r.customer_number == F && r.active) with
  | some r =>
    have hmem := List.mem_of_find?_eq_some h1
    have hpred := List.find?_some h1
    simp only [Bool.and_eq_true, beq_iff_eq] at hpred
    have hcF : r.customer_number = c := hact r hmem hpred.2
    rw [hcF] at hpred
    show some r.feedback_number = some c
    rw [hfb r hmem, hpred.1]
  | none =>
    have hsome : (db.records.find? (fun r => r.feedback_number == F && r.active)).isSome := by
      rw [List.find?_isSome]
      obtain ⟨r, hr, ha, hb⟩ := hex
      exact ⟨r, hr, by simp [ha, hb]⟩
    obtain ⟨r, heq⟩ := Option.isSome_iff_exists.mp hsome
    rw [heq]
    have hpred := List.find?_some heq
    simp only [Bool.and_eq_true, beq_iff_eq] at hpred
    show some r.customer_number = some c
    exact congrArg some (hact r (List.mem_of_find?_eq_some heq) hpred.2)

theorem partner_priority (db : DB) (p : String) (r : ConvRecord)
    (h : db.records.find? (fun r => r.customer_number == p && r.active) = some r) :
    get_conversation_partner db p = some r.feedback_number := by
  unfold get_conversation_partner
  rw [h]

/-- The row transformation applied by `track_conversation`'s UPDATE branch. -/
def updateRow (now : Nat) (amount : Option PyVal) (r : ConvRecord) : ConvRecord :=
  { r with
    last_message_time := now,
    payment_amount := (match amount with | some a => some a | none => r.payment_amount),
    active := true }

theorem track_update_shape (F : String) (now : Nat) (db : DB) (c : String)
    (a : Option PyVal) (h : db.records.any (pairMatches F c) = true) :
    track_conversation F now db c a =
      { db with records := db.records.map (fun r =>
          if pairMatches F c r then updateRow now a r else r) } := by
  unfold track_conversation updateRow
  rw [if_pos h]

theorem track_insert_shape (F : String) (now : Nat) (db : DB) (c : String)
    (a : Option PyVal) (h : db.records.any (pairMatches F c) = false) :
    track_conversation F now db c a =
      { records := db.records ++
          [{ id := db.nextId, customer_number := c, feedback_number := F,
             last_message_time := now, payment_amount := a, active := true }],
        nextId := db.nextId + 1 } := by
  unfold track_conversation
  rw [if_neg (by simp [h])]

theorem pairMatches_updateRow (F c : String) (now : Nat) (a : Option PyVal) (r : ConvRecord) :
    pairMatches F c (if pairMatches F c r then updateRow now a r else r) = pairMatches F c r := by
  by_cases hp : pairMatches F c r = true
  · rw [if_pos hp]; rfl
  · rw [if_neg hp]

theorem track_length_of_any (F : String) (now : Nat) (db : DB) (c : String)
    (a : Option PyVal) (h : db.records.any (pairMatches F c) = true) :
    (track_conversation F now db c a).records.length = db.records.length := by
  rw [track_update_shape F now db c a h]
  exact List.length_map _ _

theorem pairRecords_track_update (F : String) (now : Nat) (db : DB) (c : String)
    (a : Option PyVal) (h : db.records.any (pairMatches F c) = true) :
    pairRecords F c (track_conversation F now db c a) =
      (pairRecords F c db).map (updateRow now a) := by
  rw [track_update_shape F now db c a h]
  unfold pairRecords
  show (db.records.map _).filter _ = _
  rw [List.filter_map]
  have hcong : db.records.filter
      ((pairMatches F c) ∘ (fun r => if pairMatches F c r then updateRow now a r else r)) =
      db.records.filter (pairMatches F c) := by
    apply List.filter_congr
    intro x _
    exact pairMatches_updateRow F c now a x
  rw [hcong]
  apply List.map_congr_left
  intro x hx
  rw [if_pos (List.mem_filter.mp hx).2]

theorem pairRecords_track_insert (F : String) (now : Nat) (db : DB) (c : String)
    (a : Option PyVal) (h : db.records.any (pairMatches F c) = false) :
    pairRecords F c (track_conversation F now db c a) =
      [{ id := db.nextId, customer_number := c, feedback_number := F,
         last_message_time := now, payment_amount := a, active := true }] := by
  rw [track_insert_shape F now db c a h]
  unfold pairRecords
  show (db.records ++ _).filter _ = _
  rw [List.filter_append]
  have h1 : db.records.filter (pairMatches F c) = [] := by
    rw [List.filter_eq_nil_iff]
    intro r hr hcon
    exact absurd (List.any_eq_true.mpr ⟨r, hr, hcon⟩) (by simp [h])
  rw [h1]
  simp [pairMatches]

theorem confirmation_msgs_ne (a t p : String) :
    customerConfirmation a t ≠ feedbackConfirmation a t p := by
  intro h
  have h1 : (customerConfirmation a t).data.head? = some 'Y' := rfl
  have h2 : (feedbackConfirmation a t p).data.head? = some 'P' := rfl
  rw [h, h2] at h1
  exact absurd (Option.some.inj h1) (by decide)


theorem webhookPayment_accept (F : String) (now : Nat) (env : Env) (db : DB)
    (sender : String) (v : Rat) (hresp : env.stkResp.responseCode = some "0") :
    webhookPayment F now env db sender v =
      { db := track_conversation F now db sender (some (PyVal.vfloat v)),
        reply := paymentReply v,
        sent := [⟨pyRemoveAll F "whatsapp:", feedbackNotification v⟩],
        stk := [(formatPhone sender, v)] } := by
  unfold webhookPayment
  rw [if_pos (show (initiate_stk_push env sender v).1.responseCode = some "0" from hresp)]
  rfl

theorem webhookPayment_stk (F : String) (now : Nat) (env : Env) (db : DB)
    (sender : String) (v : Rat) :
    (webhookPayment F now env db sender v).stk = [(formatPhone sender, v)] := by
  unfold webhookPayment
  by_cases h : (initiate_stk_push env sender v).1.responseCode = some "0"
  · rw [if_pos h]; rfl
  · rw [if_neg h]; rfl

theorem webhookCmd_parse (F : String) (now : Nat) (env : Env) (db : DB)
    (sender msg : String) (v : Rat)
    (hlen : 3 ≤ (pySplit msg).length)
    (h0 : lowerStr ((pySplit msg).getD 0 "") = "!dm")
    (h1 : lowerStr ((pySplit msg).getD 1 "") = "pesa")
    (hamt : pyFloat? (pyStripChars (pyStripChars ((pySplit msg).getD 2 "")
      [dquoteChar]) [squoteChar]) = some v) :
    webhookCmd F now env db sender msg = webhookPayment F now env db sender v := by
  unfold webhookCmd
  rw [if_pos ⟨hlen, h0, h1⟩, hamt]

theorem webhookCmd_badformat (F : String) (now : Nat) (env : Env) (db : DB)
    (sender msg : String)
    (hbad : ¬ (3 ≤ (pySplit msg).length ∧ lowerStr ((pySplit msg).getD 0 "") = "!dm" ∧
      lowerStr ((pySplit msg).getD 1 "") = "pesa")) :
    webhookCmd F now env db sender msg =
      { db := db, reply := invalidFormatMsg, sent := [], stk := [] } := by
  unfold webhookCmd
  rw [if_neg hbad]

theorem webhookCmd_badamount (F : String) (now : Nat) (env : Env) (db : DB)
    (sender msg : String)
    (hlen : 3 ≤ (pySplit msg).length)
    (h0 : lowerStr ((pySplit msg).getD 0 "") = "!dm")
    (h1 : lowerStr ((pySplit msg).getD 1 "") = "pesa")
    (hamt : pyFloat? (pyStripChars (pyStripChars ((pySplit msg).getD 2 "")
      [dquoteChar]) [squoteChar]) = none) :
    webhookCmd F now env db sender msg =
      { db := db, reply := invalidAmountMsg, sent := [], stk := [] } := by
  unfold webhookCmd
  rw [if_pos ⟨hlen, h0, h1⟩, hamt]

theorem webhook_cmd_path (F : String) (now : Nat) (env : Env) (db : DB)
    (body fromField : String)
    (hstart : pyStartsWith (lowerStr (pyStripWs body)) "!dm pesa" = true) :
    webhook F now env db body fromField =
      webhookCmd F now env db (pyRemoveAll fromField "whatsapp:") (pyStripWs body) := by
  unfold webhook
  rw [hstart, if_pos rfl]

theorem webhook_forward_path (F : String) (now : Nat) (env : Env) (db : DB)
    (body fromField recipient : String)
    (hstart : pyStartsWith (lowerStr (pyStripWs body)) "!dm pesa" = false)
    (hac : is_active_conversation db (pyRemoveAll fromField "whatsapp:") = true)
    (hpart : get_conversation_partner db (pyRemoveAll fromField "whatsapp:") =
      some recipient) :
    webhook F now env db body fromField =
      { db := db,
        reply := if env.deliveryOk (pyRemoveAll recipient "whatsapp:") (pyStripWs body)
          then forwardedMsg else forwardFailMsg,
        sent := [⟨pyRemoveAll recipient "whatsapp:", pyStripWs body⟩], stk := [] } := by
  unfold webhook
  rw [hstart, if_neg (by simp), hac, if_pos rfl, hpart]
  rfl

theorem webhook_help_path (F : String) (now : Nat) (env : Env) (db : DB)
    (body fromField : String)
    (hstart : pyStartsWith (lowerStr (pyStripWs body)) "!dm pesa" = false)
    (hac : is_active_conversation db (pyRemoveAll fromField "whatsapp:") = false) :
    webhook F now env db body fromField =
      { db := db,
        reply := if pyRemoveAll fromField "whatsapp:" = F then helpFeedbackMsg
          else helpCustomerMsg,
        sent := [], stk := [] } := by
  unfold webhook
  rw [hstart, if_neg (by simp), hac, if_neg (by simp)]

theorem mpesa_callback_success (F : String) (now : Nat) (env : Env) (db : DB)
    (data : CallbackData) (p : String)
    (hsucc : resultCodeIsZero data.resultCode = true)
    (hp : data.phoneNumber = some p) (hps : p ≠ "unknown number") :
    mpesa_callback F now env db data =
      { db := track_conversation F now db p (some (transactionAmount data)),
        upserts := [(p, some (transactionAmount data))],
        sent := [⟨pyRemoveAll p "whatsapp:",
            customerConfirmation (pyStr (transactionAmount data)) (transactionId data)⟩,
          ⟨pyRemoveAll F "whatsapp:",
            feedbackConfirmation (pyStr (transactionAmount data)) (transactionId data) p⟩],
        ackCode := 0, ackDesc := "Callback received successfully" } := by
  have hcp : callbackPhone data = p := by rw [callbackPhone, hp]; rfl
  unfold mpesa_callback
  rw [hcp, if_pos ⟨hsucc, hps⟩]
  rfl

theorem mpesa_callback_noop (F : String) (now : Nat) (env : Env) (db : DB)
    (data : CallbackData)
    (h : ¬ (resultCodeIsZero data.resultCode = true ∧
      callbackPhone data ≠ "unknown number")) :
    mpesa_callback F now env db data =
      { db := db, upserts := [], sent := [],
        ackCode := 0, ackDesc := "Callback received successfully" } := by
  unfold mpesa_callback
  rw [if_neg h]

theorem contains_single (q c : Char) : [q].contains c = (c == q) := by
  cases h : c == q <;> simp [List.contains, List.elem, h]

theorem pyStripChars_id (s : String) (q : Char)
    (h : ∀ c ∈ s.data, (c == q) = false) :
    pyStripChars s [q] = s := by
  unfold pyStripChars
  have h' : ∀ c ∈ s.toList, (fun c => [q].contains c) c = false := by
    intro c hc
    show [q].contains c = false
    rw [contains_single]
    exact h c hc
  rw [stripP_eq_self _ _ h']
  cases s
  rfl

theorem pyStripChars_wrap (w : String) (q : Char) (hne : w.data ≠ [])
    (h : ∀ c ∈ w.data, (c == q) = false) :
    pyStripChars (String.mk (q :: (w.data ++ [q]))) [q] = w := by
  obtain ⟨c, t, hct⟩ := List.exists_cons_of_ne_nil hne
  show String.mk (stripP (fun c => [q].contains c) (q :: (w.data ++ [q]))) = w
  rw [hct]
  rw [stripP_wrap _ q c t
    (by rw [contains_single]; exact beq_self_eq_true q)
    (by rw [contains_single]; exact h c (hct ▸ List.mem_cons_self c t))
    (fun x hx => by rw [contains_single]; exact h x (hct ▸ List.mem_cons_of_mem c hx))]
  rw [← hct]

/-! ## Concrete fixtures used by witness theorems -/

/-- An environment whose gateway accepts the STK push and whose delivery
client always succeeds. -/
def envOk : Env := ⟨⟨some "0", none⟩, fun _ _ => true⟩

/-- An empty conversation store. -/
def dbEmpty : DB := ⟨[], 1⟩

/-! ## Claim theorems -/

/-- C8: the phone-number normalization before the gateway request is
exactly three-way: a leading `+254` loses its `+`, a leading `0` is
replaced by `254`, and any other format passes through unchanged. -/
theorem C8_phone_normalization (p : String) :
    (pyStartsWith p "+254" = true → formatPhone p = String.mk (p.toList.drop 1)) ∧
    (pyStartsWith p "+254" = false → pyStartsWith p "0" = true →
      formatPhone p = "254" ++ String.mk (p.toList.drop 1)) ∧
    (pyStartsWith p "+254" = false → pyStartsWith p "0" = false →
      formatPhone p = p) := by
  refine ⟨fun h1 => ?_, fun h1 h2 => ?_, fun h1 h2 => ?_⟩ <;> unfold formatPhone
  · rw [h1, if_pos rfl]
  · rw [h1, h2, if_neg (by simp), if_pos rfl]
  · rw [h1, h2, if_neg (by simp), if_neg (by simp)]

/-- Witness for C8 at the national-format input `0712345678`. -/
theorem C8_phone_normalization_witness :
    pyStartsWith "0712345678" "+254" = false ∧ pyStartsWith "0712345678" "0" = true ∧
    formatPhone "0712345678" = "254" ++ String.mk ("0712345678".toList.drop 1) :=
  ⟨by decide, by decide,
    (C8_phone_normalization "0712345678").2.1 (by decide) (by decide)⟩

/-- C9: every callback invocation (any parsed payload, any store, any
delivery outcomes) is answered with the fixed success acknowledgment
envelope; notification-delivery failures live inside `env` and cannot
change it. -/
theorem C9_callback_ack_fixed (F : String) (now : Nat) (env : Env) (db : DB)
    (data : CallbackData) :
    (mpesa_callback F now env db data).ackCode = 0 ∧
    (mpesa_callback F now env db data).ackDesc = "Callback received successfully" := by
  unfold mpesa_callback
  by_cases h : (resultCodeIsZero data.resultCode = true ∧
      callbackPhone data ≠ "unknown number")
  · rw [if_pos h]; exact ⟨rfl, rfl⟩
  · rw [if_neg h]; exact ⟨rfl, rfl⟩

/-- C1: a callback whose `ResultCode` is the success value 0 and whose
`PhoneNumber` is present and non-sentinel performs exactly one store
upsert, for that phone number, with the callback's amount, and attempts
exactly two outbound notifications: one to the customer and a distinct
one to the feedback endpoint.  A callback with a nonzero integer
`ResultCode` performs no store mutation and no notification. -/
theorem C1_callback_effects (F : String) (now : Nat) (env : Env) (db : DB)
    (data : CallbackData) :
    (∀ p : String, resultCodeIsZero data.resultCode = true →
      data.phoneNumber = some p → p ≠ "unknown number" →
      (mpesa_callback F now env db data).upserts = [(p, some (transactionAmount data))] ∧
      (mpesa_callback F now env db data).db =
        track_conversation F now db p (some (transactionAmount data)) ∧
      (mpesa_callback F now env db data).sent =
        [⟨pyRemoveAll p "whatsapp:",
            customerConfirmation (pyStr (transactionAmount data)) (transactionId data)⟩,
          ⟨pyRemoveAll F "whatsapp:",
            feedbackConfirmation (pyStr (transactionAmount data)) (transactionId data) p⟩] ∧
      customerConfirmation (pyStr (transactionAmount data)) (transactionId data) ≠
        feedbackConfirmation (pyStr (transactionAmount data)) (transactionId data) p) ∧
    (∀ n : Int, data.resultCode = some (PyVal.vint n) → n ≠ 0 →
      (mpesa_callback F now env db data).upserts = [] ∧
      (mpesa_callback F now env db data).sent = [] ∧
      (mpesa_callback F now env db data).db = db) := by
  constructor
  · intro p hsucc hp hps
    rw [mpesa_callback_success F now env db data p hsucc hp hps]
    exact ⟨rfl, rfl, rfl, confirmation_msgs_ne _ _ _⟩
  · intro n hrc hn
    rw [mpesa_callback_noop F now env db data ?_]
    · exact ⟨rfl, rfl, rfl⟩
    · intro hcon
      have hz := hcon.1
      rw [hrc] at hz
      simp only [resultCodeIsZero, beq_iff_eq] at hz
      exact hn hz

/-- Witness for C1 on a concrete successful callback. -/
theorem C1_callback_effects_witness :
    resultCodeIsZero (some (PyVal.vint 0)) = true ∧
    ((mpesa_callback "F" 0 envOk dbEmpty
        ⟨some (PyVal.vstr "250"), some "254700000001", some "ABC123",
          some (PyVal.vint 0)⟩).upserts =
      [("254700000001", some (PyVal.vstr "250"))] ∧
    (mpesa_callback "F" 0 envOk dbEmpty
        ⟨some (PyVal.vstr "250"), some "254700000001", some "ABC123",
          some (PyVal.vint 0)⟩).db =
      track_conversation "F" 0 dbEmpty "254700000001" (some (PyVal.vstr "250")) ∧
    (mpesa_callback "F" 0 envOk dbEmpty
        ⟨some (PyVal.vstr "250"), some "254700000001", some "ABC123",
          some (PyVal.vint 0)⟩).sent =
      [⟨"254700000001", customerConfirmation "250" "ABC123"⟩,
        ⟨"F", feedbackConfirmation "250" "ABC123" "254700000001"⟩] ∧
    customerConfirmation "250" "ABC123" ≠
      feedbackConfirmation "250" "ABC123" "254700000001") :=
  ⟨by decide,
    (C1_callback_effects "F" 0 envOk dbEmpty
      ⟨some (PyVal.vstr "250"), some "254700000001", some "ABC123",
        some (PyVal.vint 0)⟩).1 "254700000001" (by decide) rfl (by decide)⟩

/-- C10: a success callback (`ResultCode` = integer 0, non-sentinel
`PhoneNumber`) with no `Amount` field still upserts the conversation,
storing the literal sentinel string `unknown amount` in
`payment_amount`, and both outbound notifications quote that sentinel as
the paid amount. -/
theorem C10_missing_amount_sentinel (F : String) (now : Nat) (env : Env) (db : DB)
    (data : CallbackData) (p : String)
    (hna : data.amount = none)
    (hrc : data.resultCode = some (PyVal.vint 0))
    (hp : data.phoneNumber = some p)
    (hps : p ≠ "unknown number") :
    (mpesa_callback F now env db data).upserts =
      [(p, some (PyVal.vstr "unknown amount"))] ∧
    (mpesa_callback F now env db data).db.records.any (pairMatches F p) = true ∧
    (∀ r ∈ (mpesa_callback F now env db data).db.records,
      pairMatches F p r = true →
      r.payment_amount = some (PyVal.vstr "unknown amount")) ∧
    (mpesa_callback F now env db data).sent =
      [⟨pyRemoveAll p "whatsapp:",
          customerConfirmation "unknown amount" (transactionId data)⟩,
        ⟨pyRemoveAll F "whatsapp:",
          feedbackConfirmation "unknown amount" (transactionId data) p⟩] := by
  have hta : transactionAmount data = PyVal.vstr "unknown amount" := by
    rw [transactionAmount, hna]
    rfl
  have hsucc : resultCodeIsZero data.resultCode = true := by rw [hrc]; rfl
  rw [mpesa_callback_success F now env db data p hsucc hp hps, hta]
  refine ⟨rfl, track_any_pair F now db p _, ?_, rfl⟩
  exact track_pair_amount F now db p (PyVal.vstr "unknown amount")

/-- Witness for C10 on a concrete amount-less success callback. -/
theorem C10_missing_amount_sentinel_witness :
    (⟨none, some "254700000001", none, some (PyVal.vint 0)⟩ : CallbackData).amount =
      none ∧
    (mpesa_callback "F" 3 envOk dbEmpty
        ⟨none, some "254700000001", none, some (PyVal.vint 0)⟩).upserts =
      [("254700000001", some (PyVal.vstr "unknown amount"))] ∧
    (mpesa_callback "F" 3 envOk dbEmpty
        ⟨none, some "254700000001", none, some (PyVal.vint 0)⟩).db.records.any
      (pairMatches "F" "254700000001") = true ∧
    (mpesa_callback "F" 3 envOk dbEmpty
        ⟨none, some "254700000001", none, some (PyVal.vint 0)⟩).sent =
      [⟨"254700000001", customerConfirmation "unknown amount" "unknown"⟩,
        ⟨"F", feedbackConfirmation "unknown amount" "unknown" "254700000001"⟩] :=
  ⟨rfl,
    (C10_missing_amount_sentinel "F" 3 envOk dbEmpty
      ⟨none, some "254700000001", none, some (PyVal.vint 0)⟩ "254700000001"
      rfl rfl rfl (by decide)).1,
    (C10_missing_amount_sentinel "F" 3 envOk dbEmpty
      ⟨none, some "254700000001", none, some (PyVal.vint 0)⟩ "254700000001"
      rfl rfl rfl (by decide)).2.1,
    (C10_missing_amount_sentinel "F" 3 envOk dbEmpty
      ⟨none, some "254700000001", none, some (PyVal.vint 0)⟩ "254700000001"
      rfl rfl rfl (by decide)).2.2.2⟩

/-- C4: `track_conversation` is an upsert keyed on the pair: starting
from a store with no row for `(c, F)`, the first call inserts exactly one
active row carrying its amount; a second call for the same pair adds no
row (the row count is unchanged, and in general any call on a store that
already has the pair keeps the row count), and the pair's single row now
has the refreshed timestamp, `active = true`, and the second amount only
when one was provided (the first amount is kept when it was absent). -/
theorem C4_upsert_idempotent (F : String) (now1 now2 : Nat) (db : DB) (c : String)
    (a1 a2 : Option PyVal) (hnew : pairRecords F c db = []) :
    pairRecords F c (track_conversation F now1 db c a1) =
      [{ id := db.nextId, customer_number := c, feedback_number := F,
         last_message_time := now1, payment_amount := a1, active := true }] ∧
    (track_conversation F now2 (track_conversation F now1 db c a1) c a2).records.length =
      (track_conversation F now1 db c a1).records.length ∧
    pairRecords F c (track_conversation F now2 (track_conversation F now1 db c a1) c a2) =
      [{ id := db.nextId, customer_number := c, feedback_number := F,
         last_message_time := now2,
         payment_amount := (match a2 with | some x => some x | none => a1),
         active := true }] ∧
    (∀ (db2 : DB) (now : Nat) (a : Option PyVal),
      db2.records.any (pairMatches F c) = true →
      (track_conversation F now db2 c a).records.length = db2.records.length) := by
  have hany : db.records.any (pairMatches F c) = false := by
    rw [List.any_eq_false]
    intro r hr hcon
    rw [pairRecords, List.filter_eq_nil_iff] at hnew
    exact hnew r hr hcon
  have h1 := pairRecords_track_insert F now1 db c a1 hany
  have hany1 : (track_conversation F now1 db c a1).records.any (pairMatches F c) = true :=
    track_any_pair F now1 db c a1
  refine ⟨h1, track_length_of_any F now2 _ c a2 hany1, ?_,
    fun db2 now a h => track_length_of_any F now db2 c a h⟩
  rw [pairRecords_track_update F now2 _ c a2 hany1, h1]
  rfl

/-- Witness for C4 on the empty store, with an amount on the first call
and none on the second. -/
theorem C4_upsert_idempotent_witness :
    pairRecords "F" "C" dbEmpty = [] ∧
    pairRecords "F" "C" (track_conversation "F" 1 dbEmpty "C" (some (PyVal.vstr "10"))) =
      [{ id := 1, customer_number := "C", feedback_number := "F",
         last_message_time := 1, payment_amount := some (PyVal.vstr "10"),
         active := true }] ∧
    (track_conversation "F" 2 (track_conversation "F" 1 dbEmpty "C"
        (some (PyVal.vstr "10"))) "C" none).records.length =
      (track_conversation "F" 1 dbEmpty "C" (some (PyVal.vstr "10"))).records.length ∧
    pairRecords "F" "C" (track_conversation "F" 2 (track_conversation "F" 1 dbEmpty "C"
        (some (PyVal.vstr "10"))) "C" none) =
      [{ id := 1, customer_number := "C", feedback_number := "F",
         last_message_time := 2, payment_amount := some (PyVal.vstr "10"),
         active := true }] :=
  ⟨by decide,
    (C4_upsert_idempotent "F" 1 2 dbEmpty "C" (some (PyVal.vstr "10")) none
      (by decide)).1,
    (C4_upsert_idempotent "F" 1 2 dbEmpty "C" (some (PyVal.vstr "10")) none
      (by decide)).2.1,
    (C4_upsert_idempotent "F" 1 2 dbEmpty "C" (some (PyVal.vstr "10")) none
      (by decide)).2.2.1⟩

/-- C2: the store keys records by exact string equality of the phone
fields, with no normalization: an upsert for a customer string `c2` that
differs from the stored `c1` (for example the callback's `254...` form
versus the chat sender's `+254...` form) inserts a second record and
leaves the `(c1, F)` conversation untouched. -/
theorem C2_exact_string_keys (F : String) (now : Nat) (db : DB) (c1 c2 : String)
    (a : Option PyVal) (hne : c1 ≠ c2)
    (h1 : db.records.any (pairMatches F c1) = true)
    (h2 : db.records.any (pairMatches F c2) = false) :
    (track_conversation F now db c2 a).records =
      db.records ++
        [{ id := db.nextId, customer_number := c2, feedback_number := F,
           last_message_time := now, payment_amount := a, active := true }] ∧
    (track_conversation F now db c2 a).records.length = db.records.length + 1 ∧
    pairRecords F c1 (track_conversation F now db c2 a) = pairRecords F c1 db ∧
    pairRecords F c1 db ≠ [] := by
  have hshape := track_insert_shape F now db c2 a h2
  refine ⟨by rw [hshape], by rw [hshape]; simp, ?_, ?_⟩
  · rw [hshape]
    unfold pairRecords
    show (db.records ++ _).filter _ = _
    rw [List.filter_append]
    have hnil : List.filter (pairMatches F c1)
        [{ id := db.nextId, customer_number := c2, feedback_number := F,
           last_message_time := now, payment_amount := a, active := true }] = [] := by
      simp [pairMatches, Ne.symm hne]
    rw [hnil, List.append_nil]
  · intro hcon
    rw [pairRecords, List.filter_eq_nil_iff] at hcon
    obtain ⟨r, hr, hp⟩ := List.any_eq_true.mp h1
    exact hcon r hr hp

/-- Witness for C2: the initiation-time sender string `+254712345678`
versus the callback's `254712345678`. -/
theorem C2_exact_string_keys_witness :
    ("+254712345678" : String) ≠ "254712345678" ∧
    (track_conversation "F" 6
        ⟨[⟨1, "+254712345678", "F", 0, none, true⟩], 2⟩
        "254712345678" (some (PyVal.vstr "250"))).records =
      [⟨1, "+254712345678", "F", 0, none, true⟩] ++
        [{ id := 2, customer_number := "254712345678", feedback_number := "F",
           last_message_time := 6, payment_amount := some (PyVal.vstr "250"),
           active := true }] ∧
    pairRecords "F" "+254712345678"
        (track_conversation "F" 6 ⟨[⟨1, "+254712345678", "F", 0, none, true⟩], 2⟩
          "254712345678" (some (PyVal.vstr "250"))) =
      pairRecords "F" "+254712345678" ⟨[⟨1, "+254712345678", "F", 0, none, true⟩], 2⟩ :=
  ⟨by decide,
    (C2_exact_string_keys "F" 6 ⟨[⟨1, "+254712345678", "F", 0, none, true⟩], 2⟩
      "+254712345678" "254712345678" (some (PyVal.vstr "250"))
      (by decide) (by decide) (by decide)).1,
    (C2_exact_string_keys "F" 6 ⟨[⟨1, "+254712345678", "F", 0, none, true⟩], 2⟩
      "+254712345678" "254712345678" (some (PyVal.vstr "250"))
      (by decide) (by decide) (by decide)).2.2.1⟩

/-- Counterexample to C5 as stated: with an older active conversation
(`A`, `+9999`) already in the store, a successful payment acceptance for
the pair (`B`, `+9999`) does upsert and activate `B`, but
`partner_of(+9999)` still returns the FIRST active record's customer `A`,
not `B`. -/
theorem C5_counterexample :
    is_active_conversation
      (webhook "+9999" 5 ⟨⟨some "0", none⟩, fun _ _ => true⟩
        ⟨[⟨1, "A", "+9999", 0, none, true⟩], 2⟩ "!dm pesa 100" "B").db "B" = true ∧
    get_conversation_partner
      (webhook "+9999" 5 ⟨⟨some "0", none⟩, fun _ _ => true⟩
        ⟨[⟨1, "A", "+9999", 0, none, true⟩], 2⟩ "!dm pesa 100" "B").db "B" =
      some "+9999" ∧
    get_conversation_partner
      (webhook "+9999" 5 ⟨⟨some "0", none⟩, fun _ _ => true⟩
        ⟨[⟨1, "A", "+9999", 0, none, true⟩], 2⟩ "!dm pesa 100" "B").db "+9999" =
      some "A" ∧
    ¬ (get_conversation_partner
        (webhook "+9999" 5 ⟨⟨some "0", none⟩, fun _ _ => true⟩
          ⟨[⟨1, "A", "+9999", 0, none, true⟩], 2⟩ "!dm pesa 100" "B").db "+9999" =
        some "B") := by
  refine ⟨by decide, by decide, by decide, by decide⟩

/-- C5 (amended): after a successful payment acceptance for the pair
(C, F) — valid command, gateway `ResponseCode '0'`, store upsert — both
parties test active and `partner_of(C) = F`, provided every stored record
has feedback side `F`; `partner_of(F) = C` additionally requires that no
record for another customer is active (otherwise the first active record
wins).  The customer-side match always takes priority in `partner_of`. -/
theorem C5_payment_activates_pair (F : String) (now : Nat) (env : Env) (db : DB)
    (body fromField : String) (v : Rat) (C : String)
    (hC : pyRemoveAll fromField "whatsapp:" = C)
    (hstart : pyStartsWith (lowerStr (pyStripWs body)) "!dm pesa" = true)
    (hlen : 3 ≤ (pySplit (pyStripWs body)).length)
    (h0 : lowerStr ((pySplit (pyStripWs body)).getD 0 "") = "!dm")
    (h1 : lowerStr ((pySplit (pyStripWs body)).getD 1 "") = "pesa")
    (hamt : pyFloat? (pyStripChars (pyStripChars ((pySplit (pyStripWs body)).getD 2 "")
      [dquoteChar]) [squoteChar]) = some v)
    (hresp : env.stkResp.responseCode = some "0")
    (hfb : ∀ r ∈ db.records, r.feedback_number = F)
    (hact : ∀ r ∈ db.records, r.active = true → r.customer_number = C) :
    is_active_conversation (webhook F now env db body fromField).db C = true ∧
    is_active_conversation (webhook F now env db body fromField).db F = true ∧
    get_conversation_partner (webhook F now env db body fromField).db C = some F ∧
    get_conversation_partner (webhook F now env db body fromField).db F = some C ∧
    (∀ (db2 : DB) (p : String) (r : ConvRecord),
      db2.records.find? (fun r => r.customer_number == p && r.active) = some r →
      get_conversation_partner db2 p = some r.feedback_number) := by
  have hw : (webhook F now env db body fromField).db =
      track_conversation F now db C (some (PyVal.vfloat v)) := by
    rw [webhook_cmd_path F now env db body fromField hstart,
      webhookCmd_parse F now env db _ _ v hlen h0 h1 hamt,
      webhookPayment_accept F now env db _ v hresp, hC]
  rw [hw]
  obtain ⟨r0, hr0, hc0, hf0, ha0⟩ := track_exists_pair F now db C (some (PyVal.vfloat v))
  refine ⟨is_active_of_exists _ _ ⟨r0, hr0, Or.inl hc0, ha0⟩,
    is_active_of_exists _ _ ⟨r0, hr0, Or.inr hf0, ha0⟩,
    partner_customer_side _ C F
      (track_preserves_feedback F now db C _ hfb) ⟨r0, hr0, hc0, ha0⟩,
    partner_feedback_side _ C F
      (track_preserves_feedback F now db C _ hfb)
      (track_preserves_active_customer F now db C _ hact)
      ⟨r0, hr0, hf0, ha0⟩,
    fun db2 p r h => partner_priority db2 p r h⟩

/-- Witness for the amended C5 on an empty store. -/
theorem C5_payment_activates_pair_witness :
    pyStartsWith (lowerStr (pyStripWs "!dm pesa 100")) "!dm pesa" = true ∧
    is_active_conversation
      (webhook "F" 4 envOk dbEmpty "!dm pesa 100" "whatsapp:+254700000001").db
      "+254700000001" = true ∧
    is_active_conversation
      (webhook "F" 4 envOk dbEmpty "!dm pesa 100" "whatsapp:+254700000001").db
      "F" = true ∧
    get_conversation_partner
      (webhook "F" 4 envOk dbEmpty "!dm pesa 100" "whatsapp:+254700000001").db
      "+254700000001" = some "F" ∧
    get_conversation_partner
      (webhook "F" 4 envOk dbEmpty "!dm pesa 100" "whatsapp:+254700000001").db
      "F" = some "+254700000001" :=
  ⟨by decide,
    (C5_payment_activates_pair "F" 4 envOk dbEmpty "!dm pesa 100"
      "whatsapp:+254700000001" 100 "+254700000001" (by decide) (by decide) (by decide)
      (by decide) (by decide) (by decide) rfl (by simp [dbEmpty])
      (by simp [dbEmpty])).1,
    (C5_payment_activates_pair "F" 4 envOk dbEmpty "!dm pesa 100"
      "whatsapp:+254700000001" 100 "+254700000001" (by decide) (by decide) (by decide)
      (by decide) (by decide) (by decide) rfl (by simp [dbEmpty])
      (by simp [dbEmpty])).2.1,
    (C5_payment_activates_pair "F" 4 envOk dbEmpty "!dm pesa 100"
      "whatsapp:+254700000001" 100 "+254700000001" (by decide) (by decide) (by decide)
      (by decide) (by decide) (by decide) rfl (by simp [dbEmpty])
      (by simp [dbEmpty])).2.2.1,
    (C5_payment_activates_pair "F" 4 envOk dbEmpty "!dm pesa 100"
      "whatsapp:+254700000001" 100 "+254700000001" (by decide) (by decide) (by decide)
      (by decide) (by decide) (by decide) rfl (by simp [dbEmpty])
      (by simp [dbEmpty])).2.2.2.1⟩

/-- Counterexample to C6 as stated: the body `" hello "` of a message in
an active conversation is forwarded as `"hello"` — the code strips
surrounding whitespace before forwarding, so the raw body is not
forwarded verbatim. -/
theorem C6_counterexample :
    (webhook "F" 3 ⟨⟨some "0", none⟩, fun _ _ => true⟩
      ⟨[⟨1, "C", "F", 0, none, true⟩], 2⟩ " hello " "C").sent =
      [⟨"F", "hello"⟩] ∧
    (webhook "F" 3 ⟨⟨some "0", none⟩, fun _ _ => true⟩
      ⟨[⟨1, "C", "F", 0, none, true⟩], 2⟩ " hello " "C").reply = forwardedMsg ∧
    ¬ ((webhook "F" 3 ⟨⟨some "0", none⟩, fun _ _ => true⟩
      ⟨[⟨1, "C", "F", 0, none, true⟩], 2⟩ " hello " "C").sent =
      [⟨"F", " hello "⟩]) := by
  refine ⟨by decide, by decide, by decide⟩

/-- C6 (amended): a non-command message from a sender with an active
conversation is forwarded to the partner with its body stripped of
leading and trailing whitespace (verbatim otherwise), and the sender gets
the forwarding acknowledgment, or the failure notice when delivery fails;
a non-command message from a sender with no active conversation changes
nothing and yields the static help reply for that sender (the
no-active-conversations notice for the feedback endpoint itself, the
payment instructions otherwise). -/
theorem C6_forwarding (F : String) (now : Nat) (env : Env) (db : DB)
    (body fromField sender partner : String)
    (hC : pyRemoveAll fromField "whatsapp:" = sender) :
    (pyStartsWith (lowerStr (pyStripWs body)) "!dm pesa" = false →
      is_active_conversation db sender = true →
      get_conversation_partner db sender = some partner →
      (webhook F now env db body fromField).sent =
        [⟨pyRemoveAll partner "whatsapp:", pyStripWs body⟩] ∧
      (webhook F now env db body fromField).reply =
        (if env.deliveryOk (pyRemoveAll partner "whatsapp:") (pyStripWs body)
          then forwardedMsg else forwardFailMsg) ∧
      (webhook F now env db body fromField).db = db ∧
      (webhook F now env db body fromField).stk = []) ∧
    (pyStartsWith (lowerStr (pyStripWs body)) "!dm pesa" = false →
      is_active_conversation db sender = false →
      (webhook F now env db body fromField).sent = [] ∧
      (webhook F now env db body fromField).stk = [] ∧
      (webhook F now env db body fromField).db = db ∧
      (webhook F now env db body fromField).reply =
        (if sender = F then helpFeedbackMsg else helpCustomerMsg)) := by
  subst hC
  constructor
  · intro hstart hac hpart
    rw [webhook_forward_path F now env db body fromField partner hstart hac hpart]
    exact ⟨rfl, rfl, rfl, rfl⟩
  · intro hstart hac
    rw [webhook_help_path F now env db body fromField hstart hac]
    exact ⟨rfl, rfl, rfl, rfl⟩

/-- Witness for the amended C6: `hello` is relayed from the customer to
the feedback number. -/
theorem C6_forwarding_witness :
    pyStartsWith (lowerStr (pyStripWs "hello")) "!dm pesa" = false ∧
    is_active_conversation ⟨[⟨1, "C", "F", 0, none, true⟩], 2⟩ "C" = true ∧
    (webhook "F" 3 envOk ⟨[⟨1, "C", "F", 0, none, true⟩], 2⟩ "hello" "C").sent =
      [⟨"F", "hello"⟩] ∧
    (webhook "F" 3 envOk ⟨[⟨1, "C", "F", 0, none, true⟩], 2⟩ "hello" "C").reply =
      forwardedMsg :=
  ⟨by decide, by decide,
    ((C6_forwarding "F" 3 envOk ⟨[⟨1, "C", "F", 0, none, true⟩], 2⟩ "hello" "C" "C" "F"
      rfl).1 (by decide) (by decide) (by decide)).1,
    ((C6_forwarding "F" 3 envOk ⟨[⟨1, "C", "F", 0, none, true⟩], 2⟩ "hello" "C" "C" "F"
      rfl).1 (by decide) (by decide) (by decide)).2.1⟩

/-- Counterexample to C7 as stated: `"!dm  pesa abc"` (two spaces) has
the correct first two tokens and a non-numeric third token — a malformed
payment command in the claim's sense — yet, because the lowercased text
does not start with the literal `"!dm pesa"`, the router never treats it
as a command: it makes no gateway call but answers with the help reply,
not with a usage-error reply. -/
theorem C7_counterexample :
    lowerStr ((pySplit (pyStripWs "!dm  pesa abc")).getD 0 "") = "!dm" ∧
    lowerStr ((pySplit (pyStripWs "!dm  pesa abc")).getD 1 "") = "pesa" ∧
    pyFloat? (pyStripChars (pyStripChars ((pySplit (pyStripWs "!dm  pesa abc")).getD 2 "")
      [dquoteChar]) [squoteChar]) = none ∧
    (webhook "F" 0 ⟨⟨some "0", none⟩, fun _ _ => true⟩ ⟨[], 1⟩
      "!dm  pesa abc" "X").stk = [] ∧
    (webhook "F" 0 ⟨⟨some "0", none⟩, fun _ _ => true⟩ ⟨[], 1⟩
      "!dm  pesa abc" "X").reply = helpCustomerMsg ∧
    ¬ ((webhook "F" 0 ⟨⟨some "0", none⟩, fun _ _ => true⟩ ⟨[], 1⟩
        "!dm  pesa abc" "X").reply = invalidFormatMsg) ∧
    ¬ ((webhook "F" 0 ⟨⟨some "0", none⟩, fun _ _ => true⟩ ⟨[], 1⟩
        "!dm  pesa abc" "X").reply = invalidAmountMsg) := by
  refine ⟨by decide, by decide, by decide, by decide, by decide, by decide, by decide⟩

/-- C7 (amended): for every message the router classifies as a payment
command (lowercased stripped text starting with `!dm pesa`) that is
malformed — bad token structure (fewer than three tokens or wrong
`!dm`/`pesa` tokens) or a non-numeric third token — no gateway call (no
token acquisition, no STK push) happens, the store is untouched, nothing
is sent, and a usage-error reply is produced. -/
theorem C7_malformed_command (F : String) (now : Nat) (env : Env) (db : DB)
    (body fromField : String)
    (hstart : pyStartsWith (lowerStr (pyStripWs body)) "!dm pesa" = true) :
    (¬ (3 ≤ (pySplit (pyStripWs body)).length ∧
        lowerStr ((pySplit (pyStripWs body)).getD 0 "") = "!dm" ∧
        lowerStr ((pySplit (pyStripWs body)).getD 1 "") = "pesa") →
      webhook F now env db body fromField =
        { db := db, reply := invalidFormatMsg, sent := [], stk := [] }) ∧
    (3 ≤ (pySplit (pyStripWs body)).length →
      lowerStr ((pySplit (pyStripWs body)).getD 0 "") = "!dm" →
      lowerStr ((pySplit (pyStripWs body)).getD 1 "") = "pesa" →
      pyFloat? (pyStripChars (pyStripChars ((pySplit (pyStripWs body)).getD 2 "")
        [dquoteChar]) [squoteChar]) = none →
      webhook F now env db body fromField =
        { db := db, reply := invalidAmountMsg, sent := [], stk := [] }) := by
  rw [webhook_cmd_path F now env db body fromField hstart]
  exact ⟨fun h => webhookCmd_badformat F now env db _ _ h,
    fun hlen h0 h1 hamt => webhookCmd_badamount F now env db _ _ hlen h0 h1 hamt⟩

/-- Witness for the amended C7 on the non-numeric command
`!dm pesa abc`. -/
theorem C7_malformed_command_witness :
    pyStartsWith (lowerStr (pyStripWs "!dm pesa abc")) "!dm pesa" = true ∧
    pyFloat? (pyStripChars (pyStripChars ((pySplit (pyStripWs "!dm pesa abc")).getD 2 "")
      [dquoteChar]) [squoteChar]) = none ∧
    webhook "F" 0 envOk dbEmpty "!dm pesa abc" "X" =
      { db := dbEmpty, reply := invalidAmountMsg, sent := [], stk := [] } :=
  ⟨by decide, by decide,
    (C7_malformed_command "F" 0 envOk dbEmpty "!dm pesa abc" "X" (by decide)).2
      (by decide) (by decide) (by decide) (by decide)⟩

/-- Counterexample to C3 as stated: in `"!dm  pesa 100"` (two spaces) the
first two whitespace-separated tokens equal `!dm` and `pesa` and the
third is numeric, yet the lowercased message does not start with the
literal `"!dm pesa"`, so the router never invokes the payment workflow:
no amount is passed at all (the gateway-call trace is empty and the
reply is the help text). -/
theorem C3_counterexample :
    lowerStr ((pySplit (pyStripWs "!dm  pesa 100")).getD 0 "") = "!dm" ∧
    lowerStr ((pySplit (pyStripWs "!dm  pesa 100")).getD 1 "") = "pesa" ∧
    pyFloat? ((pySplit (pyStripWs "!dm  pesa 100")).getD 2 "") = some 100 ∧
    (webhook "F" 0 ⟨⟨some "0", none⟩, fun _ _ => true⟩ ⟨[], 1⟩
      "!dm  pesa 100" "B").stk = [] ∧
    ¬ ((webhook "F" 0 ⟨⟨some "0", none⟩, fun _ _ => true⟩ ⟨[], 1⟩
        "!dm  pesa 100" "B").stk = [(formatPhone "B", 100)]) := by
  refine ⟨by decide, by decide, by decide, by decide, by decide⟩

/-- C3 (amended): for every payment command whose first two
whitespace-separated tokens case-insensitively equal `!dm` and `pesa` AND
whose lowercased stripped text starts with the literal `"!dm pesa"`
(i.e. the first two tokens are separated by a single space), with a third
token that is a numeric literal optionally surrounded by one layer of
matching single or double quotes, the amount handed to the payment
workflow is exactly the numeric value of the quote-stripped third token,
for all token casings. -/
theorem C3_amount_parsing (F : String) (now : Nat) (env : Env) (db : DB)
    (body fromField : String) (w : String) (v : Rat)
    (hstart : pyStartsWith (lowerStr (pyStripWs body)) "!dm pesa" = true)
    (hlen : 3 ≤ (pySplit (pyStripWs body)).length)
    (h0 : lowerStr ((pySplit (pyStripWs body)).getD 0 "") = "!dm")
    (h1 : lowerStr ((pySplit (pyStripWs body)).getD 1 "") = "pesa")
    (hshape : (pySplit (pyStripWs body)).getD 2 "" = w ∨
      (pySplit (pyStripWs body)).getD 2 "" =
        String.mk (dquoteChar :: (w.data ++ [dquoteChar])) ∨
      (pySplit (pyStripWs body)).getD 2 "" =
        String.mk (squoteChar :: (w.data ++ [squoteChar])))
    (hq : ∀ c ∈ w.data, c ≠ dquoteChar ∧ c ≠ squoteChar)
    (hnum : pyFloat? w = some v) :
    (webhook F now env db body fromField).stk =
      [(formatPhone (pyRemoveAll fromField "whatsapp:"), v)] := by
  have hqd : ∀ c ∈ w.data, (c == dquoteChar) = false :=
    fun c hc => beq_eq_false_iff_ne.mpr (hq c hc).1
  have hqs : ∀ c ∈ w.data, (c == squoteChar) = false :=
    fun c hc => beq_eq_false_iff_ne.mpr (hq c hc).2
  have hwne : w.data ≠ [] := by
    intro hnil
    have hwe : w = "" := congrArg String.mk hnil
    rw [hwe, show pyFloat? "" = none from by decide] at hnum
    exact Option.noConfusion hnum
  have hraw : pyStripChars (pyStripChars ((pySplit (pyStripWs body)).getD 2 "")
      [dquoteChar]) [squoteChar] = w := by
    rcases hshape with h | h | h
    · rw [h, pyStripChars_id w dquoteChar hqd, pyStripChars_id w squoteChar hqs]
    · rw [h, pyStripChars_wrap w dquoteChar hwne hqd,
        pyStripChars_id w squoteChar hqs]
    · rw [h, pyStripChars_id (String.mk (squoteChar :: (w.data ++ [squoteChar])))
        dquoteChar ?_, pyStripChars_wrap w squoteChar hwne hqs]
      intro c hc
      rcases List.mem_cons.mp hc with h1 | h2
      · rw [h1]; decide
      · rcases List.mem_append.mp h2 with h3 | h4
        · exact hqd c h3
        · rw [List.mem_singleton.mp h4]; decide
  rw [webhook_cmd_path F now env db body fromField hstart,
    webhookCmd_parse F now env db _ _ v hlen h0 h1 (by rw [hraw]; exact hnum)]
  exact webhookPayment_stk F now env db _ v

/-- Witness for the amended C3 on `!DM Pesa "250"` (double-quoted amount,
mixed casing). -/
theorem C3_amount_parsing_witness :
    pyStartsWith (lowerStr (pyStripWs ("!DM Pesa " ++ dquoteStr ++ "250" ++ dquoteStr)))
      "!dm pesa" = true ∧
    (pySplit (pyStripWs ("!DM Pesa " ++ dquoteStr ++ "250" ++ dquoteStr))).getD 2 "" =
      String.mk (dquoteChar :: (("250" : String).data ++ [dquoteChar])) ∧
    pyFloat? "250" = some 250 ∧
    (webhook "F" 0 envOk dbEmpty ("!DM Pesa " ++ dquoteStr ++ "250" ++ dquoteStr)
      "whatsapp:0712345678").stk = [("254712345678", 250)] :=
  ⟨by decide, by decide, by decide, by
    rw [C3_amount_parsing "F" 0 envOk dbEmpty
      ("!DM Pesa " ++ dquoteStr ++ "250" ++ dquoteStr) "whatsapp:0712345678" "250" 250
      (by decide) (by decide) (by decide) (by decide)
      (Or.inr (Or.inl (by decide))) (by decide) (by decide)]
    decide⟩
